import Mathlib

/-!
Shallow embedding of the Story-CLI narrative state engine
(`story_buffer.py`, `game_engine.py`, `llm_interface.py`, `config.py`)
and proofs of the specification's claims about it.

Python strings are modelled by `String` (character counts match Python
`len`), Python lists by `List`, Python dicts by association lists that
keep insertion order (Python dicts preserve it), a raised `KeyError` by
`Option.none`, and file I/O by explicit record passing (`FileRead`
distinguishes a missing file, a malformed file, and a parsed record).
-/

/-- Python slicing `s[:n]`: the first `n` characters of a string. -/
def strTake (s : String) (n : Nat) : String := ⟨s.data.take n⟩

/-- Python `needle in hay` on characters: `isPrefixCh n h` is true when
`n` is a prefix of `h` (character-wise equality). -/
def isPrefixCh : List Char → List Char → Bool
  | [], _ => true
  | _ :: _, [] => false
  | a :: as, b :: bs => a == b && isPrefixCh as bs

/-- `isSubCh n h` is true when `n` occurs as a contiguous substring of `h`;
this is Python's `n in h` for strings. -/
def isSubCh (needle : List Char) : List Char → Bool
  | [] => isPrefixCh needle []
  | c :: t => isPrefixCh needle (c :: t) || isSubCh needle t

/-- Python `needle in hay` at the `String` level. -/
def strContains (hay needle : String) : Bool := isSubCh needle.data hay.data

/-- Python `str.lower()`: lower-case every character. -/
def lowerString (s : String) : String := ⟨s.data.map Char.toLower⟩

/-- The `type` field of a segment dict: `"story"`, `"player_action"` or
`"ai_response"`. -/
inductive SegKind
  | story
  | playerAction
  | aiResponse
deriving DecidableEq, Repr, BEq

/-- One entry of `StoryBuffer.story_segments`: the dict
`{"text": ..., "type": ..., "timestamp": len(self.story_segments)}`. -/
structure Segment where
  text : String
  kind : SegKind
  timestamp : Nat
deriving DecidableEq, Repr

/-- The `StoryBuffer` object: its segment list, derived context window,
interaction counter, and the three configuration values. -/
structure StoryBuffer where
  storySegments : List Segment
  contextWindow : List Segment
  interactionCount : Nat
  maxContextLength : Nat
  chunkSize : Nat
  injectionInterval : Nat
deriving DecidableEq, Repr

/-- A fresh `StoryBuffer()` under the default configuration
(`context_length` 1024, `story_chunk_size` 3, `context_injection_interval` 5). -/
def StoryBuffer.init : StoryBuffer :=
  { storySegments := []
    contextWindow := []
    interactionCount := 0
    maxContextLength := 1024
    chunkSize := 3
    injectionInterval := 5 }

/-- The loop body of `_update_context_window`, running over the reversed
segment list: keep taking segments while the running total stays within
the budget, stop at the first that would exceed it. -/
def windowTake (budget : Nat) : Nat → List Segment → List Segment
  | _, [] => []
  | total, s :: rest =>
    if total + s.text.length ≤ budget then
      s :: windowTake budget (total + s.text.length) rest
    else []

/-- `_update_context_window` as a function of the log and the budget:
newest-first scan with `insert(0, ...)` rebuilds an oldest-first suffix. -/
def computeWindow (budget : Nat) (segs : List Segment) : List Segment :=
  (windowTake budget 0 segs.reverse).reverse

/-- `StoryBuffer._update_context_window`. -/
def StoryBuffer.updateContextWindow (b : StoryBuffer) : StoryBuffer :=
  { b with contextWindow := computeWindow b.maxContextLength b.storySegments }

/-- `StoryBuffer.add_story_segment`: the new segment's `timestamp` is the
log length at append time; the window is recomputed afterwards. -/
def StoryBuffer.addStorySegment (b : StoryBuffer) (text : String) (kind : SegKind) : StoryBuffer :=
  StoryBuffer.updateContextWindow
    { b with storySegments := b.storySegments ++ [⟨text, kind, b.storySegments.length⟩] }

/-- `StoryBuffer.add_player_action`. -/
def StoryBuffer.addPlayerAction (b : StoryBuffer) (action : String) : StoryBuffer :=
  let b' := b.addStorySegment ("Player: " ++ action) SegKind.playerAction
  { b' with interactionCount := b'.interactionCount + 1 }

/-- `StoryBuffer.add_ai_response`. -/
def StoryBuffer.addAiResponse (b : StoryBuffer) (response : String) : StoryBuffer :=
  b.addStorySegment ("AI: " ++ response) SegKind.aiResponse

/-- `StoryBuffer.should_inject_context`:
`self.interaction_count % self.injection_interval == 0`. -/
def StoryBuffer.shouldInjectContext (b : StoryBuffer) : Bool :=
  b.interactionCount % b.injectionInterval == 0

/-- `StoryBuffer.get_context_for_llm`. -/
def StoryBuffer.getContextForLLM (b : StoryBuffer) : String :=
  if b.contextWindow.isEmpty then ""
  else
    String.intercalate "\n" (b.contextWindow.map (fun seg =>
      match seg.kind with
      | SegKind.story => seg.text
      | SegKind.playerAction => "Player: " ++ seg.text
      | SegKind.aiResponse => "AI: " ++ seg.text))

/-- The list `story_parts` from `get_story_summary`: texts of the
story-kind segments, in log order. -/
def StoryBuffer.storyParts (b : StoryBuffer) : List String :=
  (b.storySegments.filter (fun s => s.kind == SegKind.story)).map Segment.text

/-- `" ".join(story_parts[-5:])` from `get_story_summary`. -/
def StoryBuffer.summaryJoin (b : StoryBuffer) : String :=
  String.intercalate " " (b.storyParts.drop (b.storyParts.length - 5))

/-- `StoryBuffer.get_story_summary`. -/
def StoryBuffer.getStorySummary (b : StoryBuffer) : String :=
  if b.storySegments.isEmpty then "No story has been generated yet."
  else if b.storyParts.isEmpty then "No story content available."
  else
    let summary := b.summaryJoin
    if summary.length > 500 then strTake summary 500 ++ "..." else summary

/-- `StoryBuffer.get_recent_story_chunks`. -/
def StoryBuffer.getRecentStoryChunks (b : StoryBuffer) (numChunks : Option Nat) : List String :=
  let n := numChunks.getD b.chunkSize
  b.storyParts.drop (b.storyParts.length - n)

/-- `StoryBuffer.clear_buffer`. -/
def StoryBuffer.clearBuffer (b : StoryBuffer) : StoryBuffer :=
  { b with storySegments := [], contextWindow := [], interactionCount := 0 }

/-- The JSON object written by `StoryBuffer.save_story`. -/
structure StoryRecord where
  segments : List Segment
  interactionCount : Nat
  summary : String
deriving DecidableEq, Repr

/-- `StoryBuffer.save_story`. -/
def StoryBuffer.saveStory (b : StoryBuffer) : StoryRecord :=
  ⟨b.storySegments, b.interactionCount, b.getStorySummary⟩

/-- The three outcomes of reading and parsing a file: missing
(`FileNotFoundError`), malformed (`json.JSONDecodeError`), or a parsed
record. -/
inductive FileRead (α : Type)
  | missing
  | corrupt
  | ok (a : α)
deriving DecidableEq, Repr

/-- `StoryBuffer.load_story`: both failure branches only log a message
and change nothing; a parsed record replaces the segments and counter,
then the window is recomputed at the current budget. -/
def StoryBuffer.loadStory (b : StoryBuffer) (r : FileRead StoryRecord) : StoryBuffer :=
  match r with
  | FileRead.missing => b
  | FileRead.corrupt => b
  | FileRead.ok rec =>
    StoryBuffer.updateContextWindow
      { b with storySegments := rec.segments, interactionCount := rec.interactionCount }

/-- The action-type strings of `game_engine.py`: the four keys of
`CORE_MECHANICS`, the extra `"investigate"` string handled by
`_update_memory` and `_create_action_prompt`, and `"unknown"`. -/
inductive ActionType
  | move
  | talk
  | fight
  | use
  | investigate
  | unknown
deriving DecidableEq, Repr, BEq

/-- `CORE_MECHANICS` from `config.py`: each entry's key token and its
`examples` list, in dict insertion order (move, talk, fight, use). -/
def coreMechanics : List (ActionType × String × List String) :=
  [ (ActionType.move, "move", ["go north", "walk to the door", "enter the building"]),
    (ActionType.talk, "talk", ["speak to the merchant", "ask about the quest", "greet the guard"]),
    (ActionType.fight, "fight", ["attack the enemy", "defend yourself", "use your weapon"]),
    (ActionType.use, "use", ["pick up the key", "use the potion", "examine the map"]) ]

/-- `GameEngine._identify_action_type`: lower the input, first look for
any example phrase as a substring (first mechanic wins), then for the
mechanic's own key token, else `"unknown"`. -/
def identifyActionType (playerAction : String) : ActionType :=
  match coreMechanics.find?
      (fun m => m.2.2.any (fun ex => strContains (lowerString playerAction) ex)) with
  | some m => m.1
  | none =>
    match coreMechanics.find? (fun m => strContains (lowerString playerAction) m.2.1) with
    | some m => m.1
    | none => ActionType.unknown

/-- The engine's memory: a Python dict from category name to a dict from
action text to response text, both as insertion-ordered association
lists. -/
abbrev Mem := List (String × List (String × String))

/-- The keys of `MEMORY_TYPES` in `config.py`, in order. -/
def memoryTypes : List String :=
  ["npc_interactions", "quest_progress", "location_discovery", "item_usage"]

/-- `self.memory = {key: {} for key in MEMORY_TYPES.keys()}`. -/
def initMemory : Mem := memoryTypes.map (fun k => (k, []))

/-- Python dict assignment `d[k] = v`: overwrite in place when the key
exists, append otherwise. -/
def setEntry (d : List (String × String)) (k v : String) : List (String × String) :=
  match d with
  | [] => [(k, v)]
  | (k', v') :: t => if k' == k then (k, v) :: t else (k', v') :: setEntry t k v

/-- `self.memory[cat][k] = v`: `none` models the `KeyError` raised when
the category `cat` is not a key of the memory dict. -/
def memWrite (m : Mem) (cat k v : String) : Option Mem :=
  match m with
  | [] => none
  | (c, d) :: t =>
    if c == cat then some ((c, setEntry d k v) :: t)
    else (memWrite t cat k v).map (fun t' => (c, d) :: t')

/-- `GameEngine._update_memory`: the elif chain over the action type;
`fight` and `unknown` fall through and change nothing. -/
def updateMemory (actionType : ActionType) (action response : String) (m : Mem) : Option Mem :=
  match actionType with
  | ActionType.talk => memWrite m "npc_interactions" action response
  | ActionType.move => memWrite m "location_discovery" action response
  | ActionType.use => memWrite m "item_usage" action response
  | ActionType.investigate => memWrite m "clues_found" action response
  | _ => some m

/-- `BASIC_ACTIONS` from `config.py`. -/
def basicActions : List (ActionType × String) :=
  [ (ActionType.move, "You move in that direction."),
    (ActionType.talk, "You attempt to communicate."),
    (ActionType.fight, "You prepare for combat."),
    (ActionType.use, "You interact with the item.") ]

/-- `BASIC_ACTIONS.get(action_type, "You attempt to perform that action.")`. -/
def basicActionsGet (t : ActionType) : String :=
  ((basicActions.find? (fun p => p.1 == t)).map (fun p => p.2)).getD
    "You attempt to perform that action."

/-- `GameEngine._create_action_prompt`. -/
def createActionPrompt (mainGenre subGenre playerAction : String) (actionType : ActionType) : String :=
  let genreContext := mainGenre ++ " story in a " ++ subGenre ++ " setting"
  match actionType with
  | ActionType.move =>
    "In this " ++ genreContext ++ ", the player " ++ playerAction ++
      ". Describe what happens next in 2-3 sentences."
  | ActionType.talk =>
    "In this " ++ genreContext ++ ", the player " ++ playerAction ++
      ". Describe the response or conversation in 2-3 sentences."
  | ActionType.fight =>
    "In this " ++ genreContext ++ ", the player " ++ playerAction ++
      ". Describe the combat or conflict in 2-3 sentences."
  | ActionType.use =>
    "In this " ++ genreContext ++ ", the player " ++ playerAction ++
      ". Describe the result in 2-3 sentences."
  | ActionType.investigate =>
    "In this " ++ genreContext ++ ", the player " ++ playerAction ++
      ". Describe what they discover in 2-3 sentences."
  | ActionType.unknown =>
    "In this " ++ genreContext ++ ", the player " ++ playerAction ++
      ". Continue the story in 2-3 sentences."

/-- `LLMInterface._prepare_prompt` (Python truthiness: an empty context
string selects the second template). -/
def preparePrompt (prompt context : String) : String :=
  if context ≠ "" then
    "Context: " ++ context ++ "\n\nStory Prompt: " ++ prompt ++
      "\n\nContinue the story in 2-3 sentences, maintaining the established tone and style:"
  else
    "Story Prompt: " ++ prompt ++
      "\n\nBegin the story in 2-3 sentences, setting the scene and atmosphere:"

/-- `LLMInterface._extract_continuation`. -/
def extractContinuation (output originalPrompt : String) : String :=
  let continuation :=
    if strContains output originalPrompt then
      ((output.splitOn originalPrompt).getLastD "").trim
    else output.trim
  let c := ((continuation.replace "Context:" "").replace "Story Prompt:" "").trim
  let c := if c.length > 300 then strTake c 300 ++ "..." else c
  if c = "" then "The story continues with an interesting development..." else c

/-- The observable outcome of the `subprocess.run(["ollama", "run", ...])`
call inside `generate_story_continuation`: successful exit with some
stdout, a nonzero exit code, a `subprocess.TimeoutExpired`, or any other
exception. -/
inductive GenOutcome
  | ok (stdout : String)
  | backendError
  | timeout
  | otherError
deriving DecidableEq, Repr

/-- `LLMInterface.generate_story_continuation`: every failure is caught
inside the method and replaced by a fixed fallback string; success strips
stdout and extracts the continuation. -/
def generateStoryContinuation (outcome : GenOutcome) (prompt context : String) : String :=
  let fullPrompt := preparePrompt prompt context
  match outcome with
  | GenOutcome.ok stdout => extractContinuation stdout.trim fullPrompt
  | GenOutcome.backendError => "The story continues with an unexpected turn of events..."
  | GenOutcome.timeout => "The story continues with a moment of suspense..."
  | GenOutcome.otherError => "The story continues with an unexpected development..."

/-- The player-stats dict of `GameEngine.__init__`. -/
structure PlayerStats where
  health : Nat
  strength : Nat
  intelligence : Nat
  charisma : Nat
deriving DecidableEq, Repr

/-- The mutable state of a `GameEngine` instance. -/
structure SessionState where
  mainGenre : String
  subGenre : String
  currentScene : String
  memory : Mem
  activeQuests : List String
  completedQuests : List String
  playerStats : PlayerStats
  storyBuffer : StoryBuffer
deriving DecidableEq, Repr

/-- `GameEngine.generate_response`, parametrised by the outcome of the
generation call. The `try` body appends the player action, optionally
injects context, classifies, prompts, appends the AI response and updates
memory; a `KeyError` from `_update_memory` (`none` here) lands in the
`except` branch, which appends the `BASIC_ACTIONS` fallback as a second
AI response and leaves `current_scene` untouched. -/
def generateResponse (st : SessionState) (playerAction : String) (outcome : GenOutcome) :
    SessionState × String :=
  let buf1 := st.storyBuffer.addPlayerAction playerAction
  let llmContext := if buf1.shouldInjectContext then buf1.getContextForLLM else ""
  let actionType := identifyActionType playerAction
  let prompt := createActionPrompt st.mainGenre st.subGenre playerAction actionType
  let response := generateStoryContinuation outcome prompt llmContext
  let buf2 := buf1.addAiResponse response
  match updateMemory actionType playerAction response st.memory with
  | some m =>
    ({ st with storyBuffer := buf2, memory := m, currentScene := response }, response)
  | none =>
    let fallback := basicActionsGet actionType
    ({ st with storyBuffer := buf2.addAiResponse fallback }, fallback)

/-- The JSON object written by `GameEngine.save_game`. -/
structure GameRecord where
  mainGenre : String
  subGenre : String
  currentScene : String
  memory : Mem
  activeQuests : List String
  completedQuests : List String
  playerStats : PlayerStats
deriving DecidableEq, Repr

/-- `GameEngine.save_game`: the game record plus the story record written
by `save_story`. -/
def saveGame (st : SessionState) : GameRecord × StoryRecord :=
  (⟨st.mainGenre, st.subGenre, st.currentScene, st.memory,
    st.activeQuests, st.completedQuests, st.playerStats⟩,
   st.storyBuffer.saveStory)

/-- `GameEngine.load_game`: a missing or malformed game record is caught
before any field is assigned and before `load_story` runs, so the state
is untouched; a parsed record replaces every game field and then
`load_story` runs on the story record. -/
def loadGame (g : FileRead GameRecord) (s : FileRead StoryRecord) (st : SessionState) :
    SessionState :=
  match g with
  | FileRead.missing => st
  | FileRead.corrupt => st
  | FileRead.ok r =>
    { st with
      mainGenre := r.mainGenre
      subGenre := r.subGenre
      currentScene := r.currentScene
      memory := r.memory
      activeQuests := r.activeQuests
      completedQuests := r.completedQuests
      playerStats := r.playerStats
      storyBuffer := st.storyBuffer.loadStory s }

/-- Total text length of a list of segments (the running total of
`_update_context_window`). -/
def segListLen : List Segment → Nat
  | [] => 0
  | s :: t => s.text.length + segListLen t

/-- Python dict read `d[k]` on an insertion-ordered association list,
`none` for a `KeyError`. -/
def lookupEntry (d : List (String × String)) (k : String) : Option String :=
  match d with
  | [] => none
  | (k', v) :: t => if k' == k then some v else lookupEntry t k

/-- The segments of a log carry timestamps `n, n+1, n+2, ...` in order. -/
def indexedFrom (n : Nat) : List Segment → Prop
  | [] => True
  | s :: t => s.timestamp = n ∧ indexedFrom (n + 1) t

/-- The segments of a log carry timestamps `0, 1, 2, ...` in order. -/
def indexedOk (l : List Segment) : Prop := indexedFrom 0 l

/-- A concrete engine state (fresh buffer, empty memory) used to
instantiate theorems about `generate_response`. -/
def demoState : SessionState :=
  { mainGenre := "fantasy"
    subGenre := "medieval"
    currentScene := ""
    memory := initMemory
    activeQuests := []
    completedQuests := []
    playerStats := ⟨100, 10, 10, 10⟩
    storyBuffer := StoryBuffer.init }

@[simp] lemma segListLen_nil : segListLen [] = 0 := rfl

@[simp] lemma segListLen_cons (s : Segment) (l : List Segment) :
    segListLen (s :: l) = s.text.length + segListLen l := rfl

@[simp] lemma segListLen_append (l m : List Segment) :
    segListLen (l ++ m) = segListLen l + segListLen m := by
  induction l with
  | nil => simp
  | cons s t ih => simp [ih]; omega

@[simp] lemma segListLen_reverse (l : List Segment) : segListLen l.reverse = segListLen l := by
  induction l with
  | nil => rfl
  | cons s t ih => simp [List.reverse_cons, ih]; omega

lemma windowTake_isPrefixOfLog (b t : Nat) (l : List Segment) : windowTake b t l <+: l := by
  induction l generalizing t with
  | nil => simp [windowTake]
  | cons s rest ih =>
    rw [windowTake]
    split
    · exact List.cons_prefix_cons.mpr ⟨rfl, ih _⟩
    · exact List.nil_prefix

lemma windowTake_sum (b t : Nat) (l : List Segment) (ht : t ≤ b) :
    t + segListLen (windowTake b t l) ≤ b := by
  induction l generalizing t with
  | nil => simpa [windowTake]
  | cons s rest ih =>
    rw [windowTake]
    split
    · next h =>
      have := ih (t + s.text.length) h
      simp only [segListLen_cons]
      omega
    · simpa

lemma windowTake_tight (b t : Nat) (l : List Segment) (s : Segment) (rest : List Segment)
    (he : l = windowTake b t l ++ s :: rest) :
    b < t + segListLen (windowTake b t l) + s.text.length := by
  induction l generalizing t with
  | nil => simp [windowTake] at he
  | cons s0 l' ih =>
    rw [windowTake] at he ⊢
    by_cases h : t + s0.text.length ≤ b
    · rw [if_pos h] at he ⊢
      rw [List.cons_append, List.cons.injEq] at he
      have := ih (t + s0.text.length) he.2
      simp only [segListLen_cons]
      omega
    · rw [if_neg h] at he ⊢
      rw [List.nil_append, List.cons.injEq] at he
      obtain ⟨rfl, -⟩ := he
      simp only [segListLen_nil]
      omega

lemma prefix_reverse_suffix {l m : List Segment} (h : l <+: m) : l.reverse <:+ m.reverse := by
  obtain ⟨u, hu⟩ := h
  exact ⟨u.reverse, by rw [← List.reverse_append, hu]⟩

/-- C1: for every log and every budget `B`, the recomputed context window
is a contiguous suffix of the log whose total text length is at most `B`
and is tight — whenever a next-older segment exists (the log is the
window preceded by `pre ++ [s]`), including `s` would exceed `B`; and
after every append the buffer's stored window is exactly the recomputed
one. -/
theorem contextWindow_suffix_bounded_tight (segs : List Segment) (B : Nat) :
    computeWindow B segs <:+ segs ∧
    segListLen (computeWindow B segs) ≤ B ∧
    (∀ pre s, segs = pre ++ s :: computeWindow B segs →
      B < segListLen (computeWindow B segs) + s.text.length) ∧
    ∀ (b : StoryBuffer) (text : String) (k : SegKind),
      (b.addStorySegment text k).contextWindow =
        computeWindow (b.addStorySegment text k).maxContextLength
          (b.addStorySegment text k).storySegments := by
  refine ⟨?_, ?_, ?_, ?_⟩
  · have h := prefix_reverse_suffix (windowTake_isPrefixOfLog B 0 segs.reverse)
    rw [List.reverse_reverse] at h
    exact h
  · have h := windowTake_sum B 0 segs.reverse (Nat.zero_le B)
    simpa [computeWindow] using h
  · intro pre s hpre
    have hrev : segs.reverse = windowTake B 0 segs.reverse ++ s :: pre.reverse := by
      conv_lhs => rw [hpre]
      simp [computeWindow, List.reverse_append]
    have h := windowTake_tight B 0 segs.reverse s pre.reverse hrev
    have hlen : segListLen (windowTake B 0 segs.reverse) = segListLen (computeWindow B segs) := by
      simp [computeWindow]
    omega
  · intro b text k
    rfl

/-- C1 witness: with budget 3 over the two-segment log
`["aaaa", "bb"]`, the window is the suffix `["bb"]` of total length 2,
and including the next-older segment `"aaaa"` would exceed the budget. -/
theorem contextWindow_suffix_bounded_tight_witness :
    computeWindow 3 [⟨"aaaa", SegKind.story, 0⟩, ⟨"bb", SegKind.story, 1⟩] <:+
      [⟨"aaaa", SegKind.story, 0⟩, ⟨"bb", SegKind.story, 1⟩] ∧
    segListLen (computeWindow 3 [⟨"aaaa", SegKind.story, 0⟩, ⟨"bb", SegKind.story, 1⟩]) ≤ 3 ∧
    3 < segListLen (computeWindow 3 [⟨"aaaa", SegKind.story, 0⟩, ⟨"bb", SegKind.story, 1⟩]) +
      (Segment.mk "aaaa" SegKind.story 0).text.length := by
  have h := contextWindow_suffix_bounded_tight
    [⟨"aaaa", SegKind.story, 0⟩, ⟨"bb", SegKind.story, 1⟩] 3
  exact ⟨h.1, h.2.1, h.2.2.1 [] ⟨"aaaa", SegKind.story, 0⟩ (by decide)⟩

/-- C2 counterexample: a fresh buffer has interaction counter 0 and the
default injection interval 5, yet `should_inject_context` already
returns `true` (`0 % 5 == 0`), where the claim requires `false` at
counter 0. -/
theorem shouldInject_true_at_counter_zero :
    StoryBuffer.init.interactionCount = 0 ∧
    StoryBuffer.init.injectionInterval = 5 ∧
    StoryBuffer.init.shouldInjectContext = true := ⟨rfl, rfl, rfl⟩

/-- C2 amended: `should_inject_context` is true exactly when the counter
is a multiple of the interval — including the counter-0 state, where it
is already true; the counter increments by exactly one on every
player-action append, so within the turn flow (which checks only after
the increment) injection fires exactly at counters N, 2N, 3N, .... -/
theorem shouldInject_iff_mod (b : StoryBuffer) (a : String) :
    (b.shouldInjectContext = true ↔ b.interactionCount % b.injectionInterval = 0) ∧
    (b.addPlayerAction a).interactionCount = b.interactionCount + 1 := by
  constructor
  · simp [StoryBuffer.shouldInjectContext]
  · rfl

/-- C2 witness: after one player action on a fresh buffer the counter is
1. -/
theorem shouldInject_iff_mod_witness :
    (StoryBuffer.init.addPlayerAction "look").interactionCount =
      StoryBuffer.init.interactionCount + 1 :=
  (shouldInject_iff_mod StoryBuffer.init "look").2

/-- C3: loading the records produced by `save_game` into any session
reproduces the saved session's genre selectors, scene, memory, quest
lists, player stats, log contents and order, and interaction counter;
the context window is not restored but recomputed from the restored log
at the loading buffer's current budget. -/
theorem save_load_roundtrip (s t : SessionState) :
    (loadGame (FileRead.ok (saveGame s).1) (FileRead.ok (saveGame s).2) t).mainGenre =
      s.mainGenre ∧
    (loadGame (FileRead.ok (saveGame s).1) (FileRead.ok (saveGame s).2) t).subGenre =
      s.subGenre ∧
    (loadGame (FileRead.ok (saveGame s).1) (FileRead.ok (saveGame s).2) t).currentScene =
      s.currentScene ∧
    (loadGame (FileRead.ok (saveGame s).1) (FileRead.ok (saveGame s).2) t).memory =
      s.memory ∧
    (loadGame (FileRead.ok (saveGame s).1) (FileRead.ok (saveGame s).2) t).activeQuests =
      s.activeQuests ∧
    (loadGame (FileRead.ok (saveGame s).1) (FileRead.ok (saveGame s).2) t).completedQuests =
      s.completedQuests ∧
    (loadGame (FileRead.ok (saveGame s).1) (FileRead.ok (saveGame s).2) t).playerStats =
      s.playerStats ∧
    (loadGame (FileRead.ok (saveGame s).1)
        (FileRead.ok (saveGame s).2) t).storyBuffer.storySegments =
      s.storyBuffer.storySegments ∧
    (loadGame (FileRead.ok (saveGame s).1)
        (FileRead.ok (saveGame s).2) t).storyBuffer.interactionCount =
      s.storyBuffer.interactionCount ∧
    (loadGame (FileRead.ok (saveGame s).1)
        (FileRead.ok (saveGame s).2) t).storyBuffer.contextWindow =
      computeWindow t.storyBuffer.maxContextLength s.storyBuffer.storySegments :=
  ⟨rfl, rfl, rfl, rfl, rfl, rfl, rfl, rfl, rfl, rfl⟩

lemma mem_of_isPrefixCh : ∀ (n h : List Char), isPrefixCh n h = true → ∀ c ∈ n, c ∈ h
  | [], _, _, c, hc => absurd hc (List.not_mem_nil c)
  | _ :: _, [], hp, _, _ => by simp [isPrefixCh] at hp
  | a :: as, b :: bs, hp, c, hc => by
    rw [isPrefixCh, Bool.and_eq_true] at hp
    obtain ⟨h1, h2⟩ := hp
    have hab : a = b := by simpa using h1
    rcases List.mem_cons.mp hc with rfl | hc2
    · exact hab ▸ List.mem_cons_self _ _
    · exact List.mem_cons_of_mem _ (mem_of_isPrefixCh as bs h2 c hc2)

lemma mem_of_isSubCh : ∀ (n h : List Char), isSubCh n h = true → ∀ c ∈ n, c ∈ h
  | n, [], hp, c, hc => mem_of_isPrefixCh n [] (by simpa [isSubCh] using hp) c hc
  | n, b :: bs, hp, c, hc => by
    rw [isSubCh, Bool.or_eq_true] at hp
    rcases hp with hp | hp
    · exact mem_of_isPrefixCh n (b :: bs) hp c hc
    · exact List.mem_cons_of_mem _ (mem_of_isSubCh n bs hp c hc)

lemma toLower_whitespace {c : Char} (h : c.isWhitespace = true) : c.toLower = c := by
  simp only [Char.isWhitespace, Bool.or_eq_true, decide_eq_true_eq] at h
  rcases h with ((rfl | rfl) | rfl) | rfl <;> decide

lemma lowerString_of_whitespace {s : String} (h : ∀ c ∈ s.data, c.isWhitespace = true) :
    (lowerString s).data = s.data := by
  show s.data.map Char.toLower = s.data
  calc s.data.map Char.toLower = s.data.map id :=
        List.map_congr_left (fun c hc => toLower_whitespace (h c hc))
    _ = s.data := List.map_id s.data

lemma coreMechanics_examples_nonws :
    ∀ m ∈ coreMechanics, ∀ ex ∈ m.2.2, ∃ c ∈ ex.data, c.isWhitespace = false := by
  have h : coreMechanics.all
      (fun m => m.2.2.all (fun ex => ex.data.any (fun c => !c.isWhitespace))) = true := by decide
  simpa only [List.all_eq_true, List.any_eq_true, Bool.not_eq_true'] using h

lemma coreMechanics_keyword_nonws :
    ∀ m ∈ coreMechanics, ∃ c ∈ (m.2.1).data, c.isWhitespace = false := by
  have h : coreMechanics.all
      (fun m => (m.2.1).data.any (fun c => !c.isWhitespace)) = true := by decide
  simpa only [List.all_eq_true, List.any_eq_true, Bool.not_eq_true'] using h

lemma strContains_whitespace_false {s : String} (hws : ∀ c ∈ s.data, c.isWhitespace = true)
    (needle : String) (hn : ∃ c ∈ needle.data, c.isWhitespace = false) :
    strContains (lowerString s) needle = false := by
  obtain ⟨c, hcn, hcw⟩ := hn
  by_contra hcon
  rw [Bool.not_eq_false] at hcon
  have hmem : c ∈ (lowerString s).data := mem_of_isSubCh _ _ hcon c hcn
  rw [lowerString_of_whitespace hws] at hmem
  have := hws c hmem
  rw [hcw] at this
  exact Bool.false_ne_true this

lemma identify_whitespace (s : String) (h : ∀ c ∈ s.data, c.isWhitespace = true) :
    identifyActionType s = ActionType.unknown := by
  have h1 : coreMechanics.find?
      (fun m => m.2.2.any (fun ex => strContains (lowerString s) ex)) = none := by
    rw [List.find?_eq_none]
    intro m hm
    rw [Bool.not_eq_true, List.any_eq_false]
    intro ex hex
    rw [Bool.not_eq_true]
    exact strContains_whitespace_false h ex (coreMechanics_examples_nonws m hm ex hex)
  have h2 : coreMechanics.find? (fun m => strContains (lowerString s) m.2.1) = none := by
    rw [List.find?_eq_none]
    intro m hm
    rw [Bool.not_eq_true]
    exact strContains_whitespace_false h m.2.1 (coreMechanics_keyword_nonws m hm)
  unfold identifyActionType
  rw [h1, h2]

lemma identify_cases (a : String) :
    identifyActionType a = ActionType.move ∨ identifyActionType a = ActionType.talk ∨
    identifyActionType a = ActionType.fight ∨ identifyActionType a = ActionType.use ∨
    identifyActionType a = ActionType.unknown := by
  unfold identifyActionType
  cases h1 : coreMechanics.find?
      (fun m => m.2.2.any (fun ex => strContains (lowerString a) ex)) with
  | some m =>
    have hm := List.mem_of_find?_eq_some h1
    fin_cases hm <;> simp
  | none =>
    cases h2 : coreMechanics.find? (fun m => strContains (lowerString a) m.2.1) with
    | some m =>
      have hm := List.mem_of_find?_eq_some h2
      fin_cases hm <;> simp
    | none => simp

/-- C4: the classifier (a pure function, hence deterministic) maps
"go north" to move, "speak to the merchant" to talk, "xyzzy" to unknown,
and every empty or whitespace-only input to unknown. -/
theorem classify_values_and_whitespace :
    identifyActionType "go north" = ActionType.move ∧
    identifyActionType "speak to the merchant" = ActionType.talk ∧
    identifyActionType "xyzzy" = ActionType.unknown ∧
    ∀ s : String, (∀ c ∈ s.data, c.isWhitespace = true) →
      identifyActionType s = ActionType.unknown :=
  ⟨by decide, by decide, by decide, identify_whitespace⟩

/-- C4 witness: the single-space input (whitespace-only) classifies as
unknown. -/
theorem classify_values_and_whitespace_witness :
    identifyActionType " " = ActionType.unknown :=
  classify_values_and_whitespace.2.2.2 " " (by decide)

lemma lookupEntry_setEntry_self (d : List (String × String)) (k v : String) :
    lookupEntry (setEntry d k v) k = some v := by
  induction d with
  | nil => simp [setEntry, lookupEntry]
  | cons p t ih =>
    obtain ⟨k', v'⟩ := p
    by_cases h : (k' == k) = true
    · simp [setEntry, lookupEntry, h]
    · rw [Bool.not_eq_true] at h
      simp [setEntry, lookupEntry, h, ih]

/-- C5 counterexample: `_update_memory` with the investigate type on the
engine's initial memory raises a `KeyError` (`none`) instead of writing
the pair anywhere, because no `clues_found` category exists among the
configured `MEMORY_TYPES` keys. -/
theorem updateMemory_investigate_keyerror :
    updateMemory ActionType.investigate "search the room" "You find a clue." initMemory = none ∧
    ∀ cat ∈ memoryTypes, cat ≠ "clues_found" := by
  constructor
  · decide
  · decide

/-- C5 amended: on a memory with the four configured categories,
`_update_memory` writes Talk into `npc_interactions`, Move into
`location_discovery`, Use into `item_usage` (leaving the other
categories untouched, with the written pair readable back), Fight and
Unknown leave the memory unchanged, and Investigate raises a `KeyError`
because the `clues_found` category it targets does not exist. -/
theorem updateMemory_category_table (a r : String) (d1 d2 d3 d4 : List (String × String)) :
    updateMemory ActionType.talk a r
        [("npc_interactions", d1), ("quest_progress", d2),
         ("location_discovery", d3), ("item_usage", d4)] =
      some [("npc_interactions", setEntry d1 a r), ("quest_progress", d2),
            ("location_discovery", d3), ("item_usage", d4)] ∧
    updateMemory ActionType.move a r
        [("npc_interactions", d1), ("quest_progress", d2),
         ("location_discovery", d3), ("item_usage", d4)] =
      some [("npc_interactions", d1), ("quest_progress", d2),
            ("location_discovery", setEntry d3 a r), ("item_usage", d4)] ∧
    updateMemory ActionType.use a r
        [("npc_interactions", d1), ("quest_progress", d2),
         ("location_discovery", d3), ("item_usage", d4)] =
      some [("npc_interactions", d1), ("quest_progress", d2),
            ("location_discovery", d3), ("item_usage", setEntry d4 a r)] ∧
    updateMemory ActionType.fight a r
        [("npc_interactions", d1), ("quest_progress", d2),
         ("location_discovery", d3), ("item_usage", d4)] =
      some [("npc_interactions", d1), ("quest_progress", d2),
            ("location_discovery", d3), ("item_usage", d4)] ∧
    updateMemory ActionType.unknown a r
        [("npc_interactions", d1), ("quest_progress", d2),
         ("location_discovery", d3), ("item_usage", d4)] =
      some [("npc_interactions", d1), ("quest_progress", d2),
            ("location_discovery", d3), ("item_usage", d4)] ∧
    updateMemory ActionType.investigate a r
        [("npc_interactions", d1), ("quest_progress", d2),
         ("location_discovery", d3), ("item_usage", d4)] = none ∧
    lookupEntry (setEntry d1 a r) a = some r :=
  ⟨rfl, rfl, rfl, rfl, rfl, rfl, lookupEntry_setEntry_self d1 a r⟩

lemma updateMemory_identify_some (a resp : String) (d1 d2 d3 d4 : List (String × String)) :
    ∃ m', updateMemory (identifyActionType a) a resp
      [("npc_interactions", d1), ("quest_progress", d2),
       ("location_discovery", d3), ("item_usage", d4)] = some m' := by
  rcases identify_cases a with h | h | h | h | h <;> rw [h] <;> exact ⟨_, rfl⟩

/-- C6: when the generation call fails with a timeout or a backend error,
the turn still completes: the returned text is the fixed fallback of the
failure kind (independent of session state and player input, hence
deterministic), it is non-empty, and the log grows by exactly the
player-action segment and one AI-response segment carrying that text. -/
theorem generation_failure_one_response (st : SessionState) (a : String)
    (d1 d2 d3 d4 : List (String × String))
    (hm : st.memory = [("npc_interactions", d1), ("quest_progress", d2),
                       ("location_discovery", d3), ("item_usage", d4)])
    (o : GenOutcome) (ho : o = GenOutcome.timeout ∨ o = GenOutcome.backendError) :
    (generateResponse st a o).2 =
      (if o = GenOutcome.timeout then "The story continues with a moment of suspense..."
       else "The story continues with an unexpected turn of events...") ∧
    (generateResponse st a o).2 ≠ "" ∧
    (generateResponse st a o).1.storyBuffer.storySegments =
      st.storyBuffer.storySegments ++
        [⟨"Player: " ++ a, SegKind.playerAction, st.storyBuffer.storySegments.length⟩,
         ⟨"AI: " ++ (generateResponse st a o).2, SegKind.aiResponse,
           st.storyBuffer.storySegments.length + 1⟩] := by
  obtain ⟨m', hm'⟩ := updateMemory_identify_some a
    (generateStoryContinuation o
      (createActionPrompt st.mainGenre st.subGenre a (identifyActionType a))
      (if (st.storyBuffer.addPlayerAction a).shouldInjectContext then
        (st.storyBuffer.addPlayerAction a).getContextForLLM else ""))
    d1 d2 d3 d4
  rcases ho with rfl | rfl <;>
    · simp only [generateStoryContinuation] at hm'
      refine ⟨?_, ?_, ?_⟩ <;>
        simp [generateResponse, hm, hm', generateStoryContinuation,
          StoryBuffer.addAiResponse, StoryBuffer.addPlayerAction,
          StoryBuffer.addStorySegment, StoryBuffer.updateContextWindow]

/-- C6 witness: a timeout on a fresh demo session yields the fixed
suspense fallback, which is non-empty. -/
theorem generation_failure_one_response_witness :
    (generateResponse demoState "go north" GenOutcome.timeout).2 =
      "The story continues with a moment of suspense..." ∧
    (generateResponse demoState "go north" GenOutcome.timeout).2 ≠ "" := by
  have h := generation_failure_one_response demoState "go north" [] [] [] [] rfl
    GenOutcome.timeout (Or.inl rfl)
  exact ⟨by simpa using h.1, h.2.1⟩

/-- C7: loading from a missing game record is a no-op on the whole
session state (the story record is not even consulted), loading a
malformed game record likewise leaves every field unchanged, and a
missing or malformed story record leaves the story buffer unchanged;
all four loaders are total functions, so neither failure terminates
the session. -/
theorem load_failure_preserves_state (st : SessionState) (s : FileRead StoryRecord)
    (b : StoryBuffer) :
    loadGame FileRead.missing s st = st ∧
    loadGame FileRead.corrupt s st = st ∧
    b.loadStory FileRead.missing = b ∧
    b.loadStory FileRead.corrupt = b :=
  ⟨rfl, rfl, rfl, rfl⟩

/-- C10: the classifier's result is always one of move, talk, fight,
use, unknown — never investigate — so on any memory holding the four
configured categories the turn flow's memory update never reaches the
`clues_found` write (it never raises); the investigate branches of
`_update_memory` and `_create_action_prompt` are dead through
`generate_response`. -/
theorem classifier_range_no_investigate (s resp : String)
    (d1 d2 d3 d4 : List (String × String)) :
    (identifyActionType s = ActionType.move ∨ identifyActionType s = ActionType.talk ∨
     identifyActionType s = ActionType.fight ∨ identifyActionType s = ActionType.use ∨
     identifyActionType s = ActionType.unknown) ∧
    identifyActionType s ≠ ActionType.investigate ∧
    updateMemory (identifyActionType s) s resp
      [("npc_interactions", d1), ("quest_progress", d2),
       ("location_discovery", d3), ("item_usage", d4)] ≠ none := by
  refine ⟨identify_cases s, ?_, ?_⟩
  · rcases identify_cases s with h | h | h | h | h <;> rw [h] <;> simp
  · obtain ⟨m', hm'⟩ := updateMemory_identify_some s resp d1 d2 d3 d4
    rw [hm']
    simp

/-- C10 witness: an input that mentions investigating still classifies
to a non-investigate type. -/
theorem classifier_range_no_investigate_witness :
    identifyActionType "investigate the strange noise" ≠ ActionType.investigate :=
  (classifier_range_no_investigate "investigate the strange noise" "" [] [] [] []).2.1

lemma strTake_length (s : String) (n : Nat) : (strTake s n).length = min n s.length := by
  show (s.data.take n).length = min n s.length
  rw [List.length_take]
  rfl

/-- C8: `get_story_summary` never returns more than 503 characters; the
slice it joins is the last `min(5, story-count)` story texts; with no
story segment it returns one of the two fixed "no content" messages
(which of the two depends on whether the log is entirely empty); when
the joined text fits in 500 characters it is returned exactly, and when
longer it is cut to its first 500 characters plus the `"..."` marker. -/
theorem summary_capped_at_503 (b : StoryBuffer) :
    b.getStorySummary.length ≤ 503 ∧
    (b.storyParts.drop (b.storyParts.length - 5)).length = min 5 b.storyParts.length ∧
    (b.storySegments = [] → b.getStorySummary = "No story has been generated yet.") ∧
    (b.storySegments ≠ [] → b.storyParts = [] →
      b.getStorySummary = "No story content available.") ∧
    (b.storyParts ≠ [] → b.summaryJoin.length ≤ 500 → b.getStorySummary = b.summaryJoin) ∧
    (b.storyParts ≠ [] → 500 < b.summaryJoin.length →
      b.getStorySummary = strTake b.summaryJoin 500 ++ "...") := by
  have hdrop : (b.storyParts.drop (b.storyParts.length - 5)).length = min 5 b.storyParts.length := by
    rw [List.length_drop]
    omega
  have hsegparts : b.storyParts ≠ [] → b.storySegments ≠ [] := by
    intro hp hseg
    exact hp (by simp [StoryBuffer.storyParts, hseg])
  have htrunc : 500 < b.summaryJoin.length →
      (strTake b.summaryJoin 500 ++ "...").length = 503 := by
    intro hlen
    rw [String.length_append, strTake_length]
    have : min 500 b.summaryJoin.length = 500 := by omega
    rw [this]
    decide
  refine ⟨?_, hdrop, ?_, ?_, ?_, ?_⟩
  · by_cases h0 : b.storySegments.isEmpty
    · simp only [StoryBuffer.getStorySummary, h0, if_pos]
      decide
    · by_cases h1 : b.storyParts.isEmpty
      · simp [StoryBuffer.getStorySummary, h0, h1]
        decide
      · by_cases h2 : b.summaryJoin.length > 500
        · simp only [StoryBuffer.getStorySummary, h0, h1, if_neg, Bool.false_eq_true,
            not_false_eq_true, if_pos h2]
          rw [htrunc h2]
        · simp only [StoryBuffer.getStorySummary, h0, h1, Bool.false_eq_true,
            not_false_eq_true, if_neg h2]
          simp only [Bool.not_eq_true] at h0 h1
          simp [h0, h1]
          omega
  · intro h
    simp [StoryBuffer.getStorySummary, h]
  · intro hne hp
    have h0 : b.storySegments.isEmpty = false := List.isEmpty_eq_false.mpr hne
    have h1 : b.storyParts.isEmpty = true := by simp [hp]
    simp [StoryBuffer.getStorySummary, h0, h1]
  · intro hp hlen
    have h0 : b.storySegments.isEmpty = false := List.isEmpty_eq_false.mpr (hsegparts hp)
    have h1 : b.storyParts.isEmpty = false := List.isEmpty_eq_false.mpr hp
    have h2 : ¬ b.summaryJoin.length > 500 := by omega
    simp [StoryBuffer.getStorySummary, h0, h1, h2]
  · intro hp hlen
    have h0 : b.storySegments.isEmpty = false := List.isEmpty_eq_false.mpr (hsegparts hp)
    have h1 : b.storyParts.isEmpty = false := List.isEmpty_eq_false.mpr hp
    have h2 : b.summaryJoin.length > 500 := hlen
    simp [StoryBuffer.getStorySummary, h0, h1, h2]

/-- C8 witness: a buffer with one short story segment returns exactly
the joined text, within the 503-character cap. -/
theorem summary_capped_at_503_witness :
    (StoryBuffer.init.addStorySegment "Once upon a time." SegKind.story).getStorySummary =
      (StoryBuffer.init.addStorySegment "Once upon a time." SegKind.story).summaryJoin ∧
    (StoryBuffer.init.addStorySegment "Once upon a time."
      SegKind.story).getStorySummary.length ≤ 503 := by
  have h := summary_capped_at_503 (StoryBuffer.init.addStorySegment "Once upon a time."
    SegKind.story)
  exact ⟨h.2.2.2.2.1 (by decide) (by decide), h.1⟩

lemma indexedFrom_append (s : Segment) : ∀ (n : Nat) (l : List Segment),
    indexedFrom n l → s.timestamp = n + l.length → indexedFrom n (l ++ [s])
  | n, [], _, hs => ⟨by simpa using hs, trivial⟩
  | n, x :: xs, h, hs =>
    ⟨h.1, indexedFrom_append s (n + 1) xs h.2 (by simp at hs ⊢; omega)⟩

/-- C9 counterexample: `clear_buffer` empties a non-empty log, so the
log is not append-only (never truncated) under every operation of the
buffer — the core appends are, but the clear operation truncates. -/
theorem clearBuffer_truncates_log :
    ((StoryBuffer.init.addStorySegment "Once" SegKind.story).clearBuffer).storySegments = [] ∧
    (StoryBuffer.init.addStorySegment "Once" SegKind.story).storySegments =
      [⟨"Once", SegKind.story, 0⟩] :=
  ⟨rfl, rfl⟩

/-- C9 amended: every append operation extends the log by exactly one
segment whose sequence index equals the log length at append time,
leaving all existing segments unchanged — so a log indexed 0, 1, 2, ...
stays so under appends; `clear_buffer` (unreachable from the turn flow)
however resets the log to empty. -/
theorem append_assigns_length_index (b : StoryBuffer) (t a r : String) (k : SegKind) :
    (b.addStorySegment t k).storySegments =
      b.storySegments ++ [⟨t, k, b.storySegments.length⟩] ∧
    (b.addPlayerAction a).storySegments =
      b.storySegments ++ [⟨"Player: " ++ a, SegKind.playerAction, b.storySegments.length⟩] ∧
    (b.addAiResponse r).storySegments =
      b.storySegments ++ [⟨"AI: " ++ r, SegKind.aiResponse, b.storySegments.length⟩] ∧
    (b.clearBuffer).storySegments = [] ∧
    (indexedOk b.storySegments → indexedOk (b.addStorySegment t k).storySegments) := by
  refine ⟨rfl, rfl, rfl, rfl, ?_⟩
  intro h
  exact indexedFrom_append _ 0 _ h (by simp)

/-- C9 witness: appending to a fresh buffer yields the singleton log
with sequence index 0, and the indexed invariant holds afterwards. -/
theorem append_assigns_length_index_witness :
    (StoryBuffer.init.addStorySegment "Once" SegKind.story).storySegments =
      StoryBuffer.init.storySegments ++
        [⟨"Once", SegKind.story, StoryBuffer.init.storySegments.length⟩] ∧
    indexedOk (StoryBuffer.init.addStorySegment "Once" SegKind.story).storySegments := by
  have h := append_assigns_length_index StoryBuffer.init "Once" "a" "r" SegKind.story
  exact ⟨h.1, h.2.2.2.2 trivial⟩
